import Mathlib

/-!
Verification of the `loginAPI.ts` auth client of the
llm-spotify-playlist-generator frontend, shallowly embedded in Lean 4.

The source module does three things:
* resolves `API_BASE_URL = import.meta.env.VITE_API_URL || "http://localhost:8000"`
  once at module load;
* `redirectToLogin()` sets `window.location.href` to
  `API_BASE_URL ++ "/auth/login?redirect=true"`;
* `refreshAccessToken(refresh_token)` issues one
  `axios.post(API_BASE_URL ++ "/auth/refresh", { refresh_token })` and returns
  `res.data` unchanged, propagating any transport error unhandled.
-/

namespace LoginAPI

/-- Runtime JSON values, used for request bodies and response payloads. -/
inductive Json where
  | str (s : String)
  | num (n : Int)
  | bool (b : Bool)
  | null
  | arr (elems : List Json)
  | obj (fields : List (String × Json))

/-- HTTP method of an outbound request. -/
inductive Method where
  | get
  | post
  deriving DecidableEq, Repr

/-- An outbound HTTP request as observed on the wire: method, URL and body. -/
structure HttpRequest where
  method : Method
  url : String
  body : Json

/-- An axios response object; the client only ever reads its `data` field. -/
structure AxiosResponse where
  data : Json

/-- Outcome delivered by the underlying transport (axios) for one request:
either a success response, or the error the transport raises (network
failure, non-2xx status, malformed body), identified by an opaque string. -/
inductive TransportOutcome where
  | success (resp : AxiosResponse)
  | failure (err : String)

/-- In JavaScript, `import.meta.env.VITE_API_URL` is a `String` when the
environment variable is set and `undefined` otherwise; we model it as
`Option String`. -/
def EnvValue : Type := Option String

/-- Embedding of line 8 of `loginAPI.ts`:
`const API_BASE_URL = import.meta.env.VITE_API_URL || "http://localhost:8000"`.
JavaScript `||` returns its right operand when the left operand is falsy;
for a `String`-or-`undefined` left operand the falsy cases are exactly
`undefined` and the empty string. -/
def resolveApiBaseUrl (env : Option String) : String :=
  match env with
  | none => "http://localhost:8000"
  | some v => if v = "" then "http://localhost:8000" else v

/-- Module-level state of `loginAPI.ts`: the single `const` binding
`API_BASE_URL`, established at module load. -/
structure ModuleState where
  apiBaseUrl : String
  deriving DecidableEq, Repr

/-- Loading the module evaluates `API_BASE_URL` from the environment once. -/
def loadModule (env : Option String) : ModuleState :=
  { apiBaseUrl := resolveApiBaseUrl env }

/-- The browsing context observable from this client: `window.location.href`
plus every other piece of observable state, abstracted as a value of an
arbitrary type `α` the client knows nothing about. -/
structure World (α : Type) where
  locationHref : String
  rest : α
  deriving Repr

/-- Embedding of `redirectToLogin` (lines 27-29): assigns
`API_BASE_URL + "/auth/login?redirect=true"` to `window.location.href`.
The TypeScript function returns `void`, so the new world is its whole output. -/
def redirectToLogin {α : Type} (baseUrl : String) (w : World α) : World α :=
  { w with locationHref := baseUrl ++ "/auth/login?redirect=true" }

/-- The request constructed by `refreshAccessToken`: a POST to
`API_BASE_URL + "/auth/refresh"` with JSON body `{ refresh_token }`
(shorthand property, so the key is the identifier `refresh_token`). -/
def refreshRequest (baseUrl refresh_token : String) : HttpRequest :=
  { method := Method.post
  , url := baseUrl ++ "/auth/refresh"
  , body := Json.obj [("refresh_token", Json.str refresh_token)] }

/-- How an `await`ed axios call surfaces to the caller: a success response
resolves with the response object, a failure rejects with the raised error. -/
def outcomeToExcept (o : TransportOutcome) : Except String Json :=
  match o with
  | TransportOutcome.success resp => Except.ok resp.data
  | TransportOutcome.failure err => Except.error err

/-- Embedding of `refreshAccessToken` (lines 34-41).  The transport is passed
as a function from requests to outcomes.  The result records the full list
of outbound requests the call performs together with how the returned
promise settles: `Except.ok d` when the function resolves with `res.data = d`,
`Except.error e` when the awaited transport rejection `e` propagates. -/
def refreshAccessToken (baseUrl refresh_token : String)
    (transport : HttpRequest → TransportOutcome) :
    List HttpRequest × Except String Json :=
  let req := refreshRequest baseUrl refresh_token
  (⟨[req], outcomeToExcept (transport req)⟩ : List HttpRequest × Except String Json)

/-- `redirectToLogin` as it runs against the loaded module: it reads
`API_BASE_URL` from the module state and leaves that state unchanged
(the second component is the module state after the call). -/
def redirectToLoginM {α : Type} (m : ModuleState) (w : World α) :
    World α × ModuleState :=
  (redirectToLogin m.apiBaseUrl w, m)

/-- `refreshAccessToken` as it runs against the loaded module: it reads
`API_BASE_URL` from the module state and leaves that state unchanged. -/
def refreshAccessTokenM (m : ModuleState) (refresh_token : String)
    (transport : HttpRequest → TransportOutcome) :
    (List HttpRequest × Except String Json) × ModuleState :=
  (refreshAccessToken m.apiBaseUrl refresh_token transport, m)

/-- One call into the client, for reasoning about call sequences. -/
inductive ClientOp (α : Type) where
  | login (w : World α)
  | refresh (refresh_token : String) (transport : HttpRequest → TransportOutcome)

/-- Threads the module state through a sequence of client calls. -/
def runOps {α : Type} (m : ModuleState) : List (ClientOp α) → ModuleState
  | [] => m
  | ClientOp.login w :: rest => runOps (redirectToLoginM m w).2 rest
  | ClientOp.refresh rt t :: rest => runOps (refreshAccessTokenM m rt t).2 rest

/-- Field types that occur in the two declared payload types. -/
inductive FieldTy where
  | string
  | integer
  | optString
  deriving DecidableEq, Repr

/-- Shape of the declared type `AuthLoginResponse` (lines 11-14 of
`loginAPI.ts`): field names with their types, in declaration order. -/
def AuthLoginResponseShape : List (String × FieldTy) :=
  [("auth_url", FieldTy.string), ("state", FieldTy.string)]

/-- Shape of the declared type `TokenResponse` (lines 16-22 of
`loginAPI.ts`): field names with their types, in declaration order. -/
def TokenResponseShape : List (String × FieldTy) :=
  [ ("access_token", FieldTy.string)
  , ("token_type", FieldTy.string)
  , ("expires_in", FieldTy.integer)
  , ("refresh_token", FieldTy.optString)
  , ("scope", FieldTy.optString) ]

/-- Modelled from the spec: the shape section 3 of the spec ascribes to
`AuthorizationHandoff`, namely `{ authorization_url: string, state: string }`,
written down for comparison against the shape declared in the source. -/
def AuthorizationHandoffShapeSpec : List (String × FieldTy) :=
  [("authorization_url", FieldTy.string), ("state", FieldTy.string)]

end LoginAPI

namespace LoginAPI

/-- Claim C1: for every refresh token, `refreshAccessToken` performs exactly
one outbound request, and that request is a POST to `baseUrl ++ "/auth/refresh"`
whose JSON body is the single-field object with key `"refresh_token"` and the
given token as value. -/
theorem refresh_issues_single_post (baseUrl refresh_token : String)
    (transport : HttpRequest → TransportOutcome) :
    (refreshAccessToken baseUrl refresh_token transport).1 =
      [refreshRequest baseUrl refresh_token] ∧
    (refreshRequest baseUrl refresh_token).method = Method.post ∧
    (refreshRequest baseUrl refresh_token).url = baseUrl ++ "/auth/refresh" ∧
    (refreshRequest baseUrl refresh_token).body =
      Json.obj [("refresh_token", Json.str refresh_token)] :=
  ⟨rfl, rfl, rfl, rfl⟩

/-- Claim C2: whenever the transport fails on the refresh request (network
error, non-2xx status, malformed body), `refreshAccessToken` rejects with
exactly the error the transport raised, never resolving with any payload. -/
theorem refresh_propagates_transport_error (baseUrl refresh_token err : String)
    (transport : HttpRequest → TransportOutcome)
    (h : transport (refreshRequest baseUrl refresh_token) =
      TransportOutcome.failure err) :
    (refreshAccessToken baseUrl refresh_token transport).2 = Except.error err := by
  simp [refreshAccessToken, outcomeToExcept, h]

/-- Witness for C2: a transport that rejects with an HTTP 401 error makes the
refresh call reject with that same error. -/
theorem refresh_propagates_transport_error_witness :
    (refreshAccessToken "http://localhost:8000" "abc123"
      (fun _ => TransportOutcome.failure "Request failed with status code 401")).2 =
      Except.error "Request failed with status code 401" :=
  refresh_propagates_transport_error "http://localhost:8000" "abc123"
    "Request failed with status code 401"
    (fun _ => TransportOutcome.failure "Request failed with status code 401") rfl

/-- Counterexample to claim C3 as stated: with the environment variable set to
the value `""`, the resolved base URL is not `""` (JavaScript `||` treats the
empty string as falsy and falls back to the default). -/
theorem resolve_env_set_counterexample :
    resolveApiBaseUrl (some "") ≠ "" := by decide

/-- Claim C3 (amended): for every NON-EMPTY value V of the environment variable
providing the backend base URL, the resolved base URL equals V. -/
theorem resolve_env_set_nonempty (v : String) (h : v ≠ "") :
    resolveApiBaseUrl (some v) = v := by
  simp [resolveApiBaseUrl, h]

/-- Witness for the amended C3: a concrete non-empty value resolves to itself. -/
theorem resolve_env_set_nonempty_witness :
    resolveApiBaseUrl (some "https://api.example.com") = "https://api.example.com" :=
  resolve_env_set_nonempty "https://api.example.com" (by decide)

/-- Claim C4: with the environment variable unset, the resolved base URL is
the documented local-development default. -/
theorem resolve_env_unset_default :
    resolveApiBaseUrl none = "http://localhost:8000" := rfl

/-- Claim C5: `redirectToLogin` sets the browsing context's location to
exactly `baseUrl ++ "/auth/login?redirect=true"` and leaves every other piece
of observable state untouched; the new world is its entire output, so it
returns no other value. -/
theorem redirectToLogin_navigates_only {α : Type} (baseUrl : String)
    (w : World α) :
    (redirectToLogin baseUrl w).locationHref =
      baseUrl ++ "/auth/login?redirect=true" ∧
    (redirectToLogin baseUrl w).rest = w.rest :=
  ⟨rfl, rfl⟩

/-- Claim C6: whenever the transport succeeds with a response, the refresh
call resolves with exactly that response's payload, unchanged. -/
theorem refresh_returns_payload_unchanged (baseUrl refresh_token : String)
    (transport : HttpRequest → TransportOutcome) (resp : AxiosResponse)
    (h : transport (refreshRequest baseUrl refresh_token) =
      TransportOutcome.success resp) :
    (refreshAccessToken baseUrl refresh_token transport).2 =
      Except.ok resp.data := by
  simp [refreshAccessToken, outcomeToExcept, h]

/-- The mocked success payload from the spec's testable property:
an object with access_token "t", token_type "bearer" and expires_in 3600. -/
def mockedTokenPayload : Json :=
  Json.obj [ ("access_token", Json.str "t")
           , ("token_type", Json.str "bearer")
           , ("expires_in", Json.num 3600) ]

/-- Witness for C6: the mocked payload is returned as-is. -/
theorem refresh_returns_payload_unchanged_witness :
    (refreshAccessToken "http://localhost:8000" "abc123"
      (fun _ => TransportOutcome.success ⟨mockedTokenPayload⟩)).2 =
      Except.ok mockedTokenPayload :=
  refresh_returns_payload_unchanged "http://localhost:8000" "abc123"
    (fun _ => TransportOutcome.success ⟨mockedTokenPayload⟩)
    ⟨mockedTokenPayload⟩ rfl

/-- Counterexample to claim C7 as stated: the shape the source declares for
the login payload differs from the shape the spec ascribes to
AuthorizationHandoff — the first field is named auth_url, not
authorization_url. -/
theorem authLoginShape_counterexample :
    AuthLoginResponseShape ≠ AuthorizationHandoffShapeSpec := by decide

/-- Claim C7 (amended): the declared login payload type has exactly two
string-typed fields named auth_url and state — the field names are
auth_url and state, the field types agree positionally with the spec's
shape, but the declared shape is not the spec's shape because the first
field is auth_url rather than authorization_url. -/
theorem authLoginShape_amended :
    AuthLoginResponseShape.map Prod.fst = ["auth_url", "state"] ∧
    AuthLoginResponseShape.map Prod.snd =
      AuthorizationHandoffShapeSpec.map Prod.snd ∧
    AuthLoginResponseShape ≠ AuthorizationHandoffShapeSpec := by
  refine ⟨rfl, rfl, ?_⟩
  decide

/-- Claim C8: the base URL is fixed at module load and immutable thereafter —
each client operation leaves the module state unchanged, and any sequence of
client operations ends with the module state it started from, so every call
observes the same base URL. -/
theorem baseUrl_immutable {α : Type} (m : ModuleState) (w : World α)
    (rt : String) (t : HttpRequest → TransportOutcome)
    (ops : List (ClientOp α)) :
    (redirectToLoginM m w).2 = m ∧
    (refreshAccessTokenM m rt t).2 = m ∧
    runOps m ops = m := by
  refine ⟨rfl, rfl, ?_⟩
  induction ops with
  | nil => rfl
  | cons op rest ih =>
      cases op <;>
        simpa [runOps, redirectToLoginM, refreshAccessTokenM] using ih

/-- Claim C9: `refreshAccessToken` performs no local validation — for every
token, including the empty string, its outcome is exactly what the transport
answers on the constructed request (no local error path exists before the
transport call), and the request carrying that token is issued. -/
theorem refresh_no_local_validation (baseUrl refresh_token : String)
    (transport : HttpRequest → TransportOutcome) :
    (refreshAccessToken baseUrl refresh_token transport).2 =
      outcomeToExcept (transport (refreshRequest baseUrl refresh_token)) ∧
    (refreshRequest baseUrl refresh_token).body =
      Json.obj [("refresh_token", Json.str refresh_token)] ∧
    (refreshAccessToken baseUrl "" transport).1 = [refreshRequest baseUrl ""] :=
  ⟨rfl, rfl, rfl⟩

/-- Claim C10: with the environment variable set to the empty string — the
only falsy value a string environment setting can take — the resolved base
URL is the local-development default, not the empty string. -/
theorem resolve_env_empty_default :
    resolveApiBaseUrl (some "") = "http://localhost:8000" := rfl

end LoginAPI
